import Mathlib

/-!
Verification development for the phoenix OpenAI chat-completion
instrumentation core and the trace-writer constants.

The trace-writer constants are embedded directly from
`src/phoenix/experimental/trace_writer/constants.py`.  The
instrumentation core (instrumentor, call interceptor, stream
accumulator, attribute extractor, tracer) is shipped in this
repository only through its test suite, so those components are
modelled from the specification, as the doc comments note.
-/

/-! ## Trace-writer constants

Embedded from `src/phoenix/experimental/trace_writer/constants.py`. -/

/-- Column-to-pandas-dtype mapping of the span dataframe, from
`constants.py` (`SPAN_DATAFRAME_TYPES`). -/
def SPAN_DATAFRAME_TYPES : List (String × String) := [
  ("name", "object"),
  ("span_kind", "object"),
  ("parent_id", "object"),
  ("start_time", "datetime64[ns, UTC]"),
  ("end_time", "datetime64[ns, UTC]"),
  ("status_code", "object"),
  ("status_message", "object"),
  ("events", "object"),
  ("conversation", "object"),
  ("context.trace_id", "object"),
  ("context.span_id", "object"),
  ("attributes.llm.output_messages", "object"),
  ("attributes.llm.token_count.prompt", "float64"),
  ("attributes.llm.model_name", "object"),
  ("attributes.llm.input_messages", "object"),
  ("attributes.llm.token_count.total", "float64"),
  ("attributes.llm.invocation_parameters", "object"),
  ("attributes.llm.token_count.completion", "float64"),
  ("attributes.input.value", "object"),
  ("attributes.input.mime_type", "object"),
  ("attributes.output.value", "object"),
  ("attributes.output.mime_type", "object"),
  ("attributes.__computed__.latency_ms", "float64"),
  ("attributes.__computed__.error_count", "int64"),
  ("attributes.__computed__.cumulative_token_count.total", "float64"),
  ("attributes.__computed__.cumulative_token_count.prompt", "float64"),
  ("attributes.__computed__.cumulative_token_count.completion", "float64"),
  ("attributes.retrieval.documents", "object")]

/-- Mapping from pandas dtype strings to DataBricks SQL types, from
`constants.py` (`SQL_TYPE_MAP`). -/
def SQL_TYPE_MAP : List (String × String) := [
  ("object", "STRING"),
  ("float64", "DOUBLE"),
  ("datetime64[ns, UTC]", "TIMESTAMP"),
  ("int64", "INT")]

/-! ## Chat data model

Modelled from the spec: the upstream client contract (spec section 6) and
the message shape (spec sections 3 and 4.1).  The instrumentor
implementation `phoenix/trace/openai/instrumentor.py` is not shipped in
`src/`; only its tests are. -/

/-- Modelled from the spec: a function-call payload carrying a function
name and an arguments JSON string. -/
structure FunctionCall where
  name : String
  arguments : String
deriving DecidableEq

/-- Modelled from the spec: one tool-call entry of a message, carrying
the function name and arguments JSON. -/
structure ToolCallEntry where
  functionName : String
  functionArguments : String
deriving DecidableEq

/-- Modelled from the spec: a chat message with `role`, optional
`content`, optional `name`, optional `function_call`, optional
`tool_calls`. -/
structure ChatMessage where
  role : String
  content : Option String := none
  name : Option String := none
  function_call : Option FunctionCall := none
  tool_calls : Option (List ToolCallEntry) := none
deriving DecidableEq

/-- Modelled from the spec: a chat-completion request with `model`,
`messages`, a `stream` flag, and the recognized invocation parameters
already serialized as canonical JSON by the client layer. -/
structure Request where
  model : String
  messages : List ChatMessage
  paramsJson : String := ""
  stream : Bool := false
deriving DecidableEq

/-- Modelled from the spec: token-count usage of a response. -/
structure Usage where
  prompt_tokens : Nat
  completion_tokens : Nat
  total_tokens : Nat
deriving DecidableEq

/-- Modelled from the spec: one response choice carrying a message. -/
structure Choice where
  message : ChatMessage
deriving DecidableEq

/-- Modelled from the spec: a parsed non-streaming chat-completion
response with `choices`, optional `usage`, and the raw response body as
canonical JSON. -/
structure Response where
  choices : List Choice
  usage : Option Usage := none
  rawJson : String := ""
deriving DecidableEq

/-- Modelled from the spec: a typed error raised by the underlying
client (e.g. an authentication failure), identified by its type name
and message. -/
structure UpstreamError where
  etype : String
  message : String
deriving DecidableEq

/-- Modelled from the spec: outcome of the uninstrumented
chat-completion entry point — either a parsed response or a raised
typed error. -/
inductive Outcome where
  | success (r : Response)
  | failure (e : UpstreamError)
deriving DecidableEq

/-- Modelled from the spec: one tool-call delta entry of a streamed
chunk, keyed by its index. -/
structure ToolCallDelta where
  index : Nat
  name : Option String := none
  arguments : Option String := none
deriving DecidableEq

/-- Modelled from the spec: the delta of a streamed chunk
(`choices[0].delta`) with optional role, content, function-call name,
function-call arguments and tool-call entries. -/
structure ChunkDelta where
  role : Option String := none
  content : Option String := none
  functionCallName : Option String := none
  functionCallArguments : Option String := none
  tool_calls : List ToolCallDelta := []
deriving DecidableEq

/-- Modelled from the spec: a streamed delta chunk. -/
structure Chunk where
  delta : ChunkDelta
deriving DecidableEq

/-! ## Span model

Modelled from the spec: span data model (spec section 3). -/

/-- Modelled from the spec: the span kind enumeration (at least `LLM`). -/
inductive SpanKind where
  | LLM
deriving DecidableEq

/-- Modelled from the spec: span status codes. -/
inductive SpanStatusCode where
  | OK
  | ERROR
  | UNSET
deriving DecidableEq

/-- Modelled from the spec: a span event — either a generic named
message event (e.g. the first-token event) or a `SpanException` event
carrying exception type, message and stacktrace. -/
inductive SpanEvent where
  | message (name : String)
  | exception (etype : String) (msg : String) (stacktrace : String)
deriving DecidableEq

/-- Modelled from the spec: a message-attribute value — either a string
or a list of tool-call key/value records. -/
inductive MsgValue where
  | str (s : String)
  | toolCalls (v : List (List (String × String)))
deriving DecidableEq

/-- Modelled from the spec: a span-attribute value — a string, a
natural number (token counts), a JSON object with string fields (the
top-level function-call payload), or a list of messages where each
message is an ordered key/value mapping. -/
inductive AttrValue where
  | str (s : String)
  | nat (n : Nat)
  | obj (kvs : List (String × String))
  | msgs (ms : List (List (String × MsgValue)))
  | chunkList (cs : List Chunk)
deriving DecidableEq

/-- Modelled from the spec: a finalized span. -/
structure Span where
  name : String
  spanKind : SpanKind
  statusCode : SpanStatusCode
  statusMessage : String
  attributes : List (String × AttrValue)
  events : List SpanEvent
deriving DecidableEq

/-! ## Semantic attribute keys

Modelled from the spec: the fixed semantic-conventions namespace
(spec sections 3 and 6). -/

/-- Semantic key for input messages. -/
def LLM_INPUT_MESSAGES : String := "llm.input_messages"

/-- Semantic key for output messages. -/
def LLM_OUTPUT_MESSAGES : String := "llm.output_messages"

/-- Semantic key for invocation parameters. -/
def LLM_INVOCATION_PARAMETERS : String := "llm.invocation_parameters"

/-- Semantic key for the top-level function-call payload. -/
def LLM_FUNCTION_CALL : String := "llm.function_call"

/-- Semantic key for the prompt token count. -/
def LLM_TOKEN_COUNT_PROMPT : String := "llm.token_count.prompt"

/-- Semantic key for the completion token count. -/
def LLM_TOKEN_COUNT_COMPLETION : String := "llm.token_count.completion"

/-- Semantic key for the total token count. -/
def LLM_TOKEN_COUNT_TOTAL : String := "llm.token_count.total"

/-- Semantic key for the input value. -/
def INPUT_VALUE : String := "input.value"

/-- Semantic key for the input mime type. -/
def INPUT_MIME_TYPE : String := "input.mime_type"

/-- Semantic key for the output value. -/
def OUTPUT_VALUE : String := "output.value"

/-- Semantic key for the output mime type. -/
def OUTPUT_MIME_TYPE : String := "output.mime_type"

/-- Semantic key for a message role. -/
def MESSAGE_ROLE : String := "message.role"

/-- Semantic key for a message content. -/
def MESSAGE_CONTENT : String := "message.content"

/-- Semantic key for a message name. -/
def MESSAGE_NAME : String := "message.name"

/-- Semantic key for a message function-call name. -/
def MESSAGE_FUNCTION_CALL_NAME : String := "message.function_call_name"

/-- Semantic key for a message function-call arguments JSON. -/
def MESSAGE_FUNCTION_CALL_ARGUMENTS_JSON : String :=
  "message.function_call_arguments_json"

/-- Semantic key for a message tool-calls list. -/
def MESSAGE_TOOL_CALLS : String := "message.tool_calls"

/-- Semantic key for a tool-call function name. -/
def TOOL_CALL_FUNCTION_NAME : String := "tool_call.function.name"

/-- Semantic key for a tool-call function arguments JSON. -/
def TOOL_CALL_FUNCTION_ARGUMENTS_JSON : String :=
  "tool_call.function.arguments"

/-! ## Attribute extractor

Modelled from the spec: pure mapping from a recognized request/response
pair to attribute entries (spec section 4.1). -/

/-- Modelled from the spec: the key/value record of one tool-call entry. -/
def toolCallEntryAttributes (t : ToolCallEntry) : List (String × String) :=
  [(TOOL_CALL_FUNCTION_NAME, t.functionName),
   (TOOL_CALL_FUNCTION_ARGUMENTS_JSON, t.functionArguments)]

/-- Modelled from the spec: the ordered key/value mapping of one chat
message, emitting exactly the fields that are populated — `role` always,
`content`, `name`, `function_call.\x7bname,arguments\x7d` and `tool_calls`
only when present. -/
def messageAttributes (m : ChatMessage) : List (String × MsgValue) :=
  [(MESSAGE_ROLE, MsgValue.str m.role)]
  ++ (match m.content with
      | some c => [(MESSAGE_CONTENT, MsgValue.str c)]
      | none => [])
  ++ (match m.name with
      | some n => [(MESSAGE_NAME, MsgValue.str n)]
      | none => [])
  ++ (match m.function_call with
      | some fc =>
        [(MESSAGE_FUNCTION_CALL_NAME, MsgValue.str fc.name),
         (MESSAGE_FUNCTION_CALL_ARGUMENTS_JSON, MsgValue.str fc.arguments)]
      | none => [])
  ++ (match m.tool_calls with
      | some ts =>
        [(MESSAGE_TOOL_CALLS, MsgValue.toolCalls (ts.map toolCallEntryAttributes))]
      | none => [])

/-- Modelled from the spec: whether an input message is a prior
assistant function-call message. -/
def isAssistantFunctionCallMessage (m : ChatMessage) : Bool :=
  m.role == "assistant" && m.function_call.isSome

/-- Modelled from the spec: the attributes seeded at call entry — input
messages, invocation parameters, input value and input mime type
(spec sections 4.1 and 4.3). -/
def requestAttributes (req : Request) : List (String × AttrValue) :=
  [(LLM_INPUT_MESSAGES, AttrValue.msgs (req.messages.map messageAttributes)),
   (LLM_INVOCATION_PARAMETERS, AttrValue.str req.paramsJson),
   (INPUT_VALUE, AttrValue.str req.paramsJson),
   (INPUT_MIME_TYPE, AttrValue.str "application/json")]

/-- Modelled from the spec: the top-level function-call attribute —
present iff the single response message has `function_call` and no
prior assistant function-call message exists in the input messages; its
value is a JSON object with the keys `name` and `arguments`. -/
def functionCallAttribute (req : Request) (resp : Response) :
    List (String × AttrValue) :=
  match resp.choices with
  | [c] =>
    match c.message.function_call with
    | some fc =>
      if req.messages.any isAssistantFunctionCallMessage then []
      else [(LLM_FUNCTION_CALL,
             AttrValue.obj [("name", fc.name), ("arguments", fc.arguments)])]
    | none => []
  | _ => []

/-- Modelled from the spec: the function call of the single response
message, when the response has exactly one choice and its message
carries one. -/
def singleFunctionCall (resp : Response) : Option FunctionCall :=
  match resp.choices with
  | [c] => c.message.function_call
  | _ => none

/-- Modelled from the spec: token-count attributes copied from `usage`
when present. -/
def tokenCountAttributes : Option Usage → List (String × AttrValue)
  | some u =>
    [(LLM_TOKEN_COUNT_PROMPT, AttrValue.nat u.prompt_tokens),
     (LLM_TOKEN_COUNT_COMPLETION, AttrValue.nat u.completion_tokens),
     (LLM_TOKEN_COUNT_TOTAL, AttrValue.nat u.total_tokens)]
  | none => []

/-- Modelled from the spec: the full attribute map of a successful
non-streaming chat completion — request attributes plus output
messages, the conditional top-level function call, token counts, and
output value and mime type. -/
def chatCompletionAttributes (req : Request) (resp : Response) :
    List (String × AttrValue) :=
  requestAttributes req
  ++ [(LLM_OUTPUT_MESSAGES,
       AttrValue.msgs (resp.choices.map (fun c => messageAttributes c.message)))]
  ++ functionCallAttribute req resp
  ++ tokenCountAttributes resp.usage
  ++ [(OUTPUT_VALUE, AttrValue.str resp.rawJson),
      (OUTPUT_MIME_TYPE, AttrValue.str "application/json")]

/-! ## Spans produced by the interceptor

Modelled from the spec: call interceptor (spec section 4.3) and error
handling (spec section 7). -/

/-- Modelled from the spec: the span of a successful non-streaming
chat-completion call — status `OK`, empty status message, no events. -/
def chatCompletionSpan (req : Request) (resp : Response) : Span :=
  { name := "OpenAI Chat Completion"
    spanKind := SpanKind.LLM
    statusCode := SpanStatusCode.OK
    statusMessage := ""
    attributes := chatCompletionAttributes req resp
    events := [] }

/-- Modelled from the spec: the textual stacktrace recorded for a raised
fault; it carries the textual traceback header expected by consumers
(spec section 7). -/
def formatStacktrace (e : UpstreamError) : String :=
  "Traceback" ++ " (most recent call last):\n" ++ e.etype ++ ": " ++ e.message

/-- Modelled from the spec: the `SpanException` event recorded for a
raised fault, carrying type, message and stacktrace. -/
def exceptionEvent (e : UpstreamError) : SpanEvent :=
  SpanEvent.exception e.etype e.message (formatStacktrace e)

/-- Modelled from the spec: the span of a chat-completion call in which
the underlying client raised a typed error — status `ERROR`, the error
message as status message, and a single `SpanException` event. -/
def errorSpan (req : Request) (e : UpstreamError) : Span :=
  { name := "OpenAI Chat Completion"
    spanKind := SpanKind.LLM
    statusCode := SpanStatusCode.ERROR
    statusMessage := e.message
    attributes := requestAttributes req
    events := [exceptionEvent e] }

/-- Modelled from the spec: the span emitted for one non-streaming call
outcome. -/
def spanForOutcome (req : Request) : Outcome → Span
  | Outcome.success r => chatCompletionSpan req r
  | Outcome.failure e => errorSpan req e

/-- Modelled from the spec: the blocking call interceptor on the
non-streaming path.  It invokes the original entry point with the
arguments unchanged, appends exactly one span to the tracer, and hands
the outcome — return value or raised error — back unchanged
(spec section 4.3).  The cooperatively-suspending variant shares this
logic verbatim. -/
def interceptChatCompletion (tracer : List Span)
    (call : Request → Outcome) (req : Request) : Outcome × List Span :=
  match call req with
  | Outcome.success r => (Outcome.success r, tracer ++ [chatCompletionSpan req r])
  | Outcome.failure e => (Outcome.failure e, tracer ++ [errorSpan req e])

/-! ## Stream accumulator

Modelled from the spec: stream accumulator state and aggregation rules
(spec section 4.2). -/

/-- Modelled from the spec: the accumulator state — first-token flag,
recorded raw chunks, accumulated role, content, function-call name and
arguments, and tool-call entries keyed by index. -/
structure AccState where
  firstTokenSeen : Bool := false
  chunksSeen : List Chunk := []
  role : Option String := none
  content : String := ""
  functionCallName : Option String := none
  functionCallArguments : String := ""
  toolCallsAcc : List (Nat × FunctionCall) := []
deriving DecidableEq

/-- Modelled from the spec: the empty accumulator state. -/
def emptyAccState : AccState := {}

/-- Modelled from the spec: upsert of one tool-call delta by index —
assign the function name on first sight, append the arguments. -/
def upsertToolCall : List (Nat × FunctionCall) → ToolCallDelta →
    List (Nat × FunctionCall)
  | [], d =>
    [(d.index, { name := d.name.getD "", arguments := d.arguments.getD "" })]
  | (i, fc) :: rest, d =>
    if i == d.index then
      (i, { name := if fc.name == "" then d.name.getD "" else fc.name,
            arguments := fc.arguments ++ d.arguments.getD "" }) :: rest
    else
      (i, fc) :: upsertToolCall rest d

/-- Modelled from the spec: aggregation of one chunk into the
accumulator state — set the first-token flag, record the raw chunk, set
the role and function-call name when present, append the content and
function-call-arguments deltas, upsert tool-call entries. -/
def accumulate (s : AccState) (c : Chunk) : AccState :=
  { firstTokenSeen := true
    chunksSeen := s.chunksSeen ++ [c]
    role := match c.delta.role with
      | some r => some r
      | none => s.role
    content := s.content ++ c.delta.content.getD ""
    functionCallName := match c.delta.functionCallName with
      | some n => some n
      | none => s.functionCallName
    functionCallArguments :=
      s.functionCallArguments ++ c.delta.functionCallArguments.getD ""
    toolCallsAcc := c.delta.tool_calls.foldl upsertToolCall s.toolCallsAcc }

/-- Modelled from the spec: aggregation of a whole chunk sequence
starting from the empty state. -/
def streamAggregate (chunks : List Chunk) : AccState :=
  chunks.foldl accumulate emptyAccState

/-- Modelled from the spec: the ordered key/value mapping of the
aggregated assistant message, emitting exactly the fields that were
populated during accumulation. -/
def aggregatedMessageAttributes (s : AccState) : List (String × MsgValue) :=
  (match s.role with
   | some r => [(MESSAGE_ROLE, MsgValue.str r)]
   | none => [])
  ++ (if s.content == "" then []
      else [(MESSAGE_CONTENT, MsgValue.str s.content)])
  ++ (match s.functionCallName with
      | some n => [(MESSAGE_FUNCTION_CALL_NAME, MsgValue.str n)]
      | none => [])
  ++ (if s.functionCallArguments == "" then []
      else [(MESSAGE_FUNCTION_CALL_ARGUMENTS_JSON,
             MsgValue.str s.functionCallArguments)])
  ++ (match s.toolCallsAcc with
      | [] => []
      | ts =>
        [(MESSAGE_TOOL_CALLS,
          MsgValue.toolCalls (ts.map (fun p =>
            [(TOOL_CALL_FUNCTION_NAME, p.2.name),
             (TOOL_CALL_FUNCTION_ARGUMENTS_JSON, p.2.arguments)])))])

/-- Modelled from the spec: the attribute map of a finalized streaming
span — request attributes plus the single aggregated assistant output
message and the streamed output value and mime type. -/
def streamAttributes (req : Request) (s : AccState) :
    List (String × AttrValue) :=
  requestAttributes req
  ++ [(LLM_OUTPUT_MESSAGES, AttrValue.msgs [aggregatedMessageAttributes s])]
  ++ [(OUTPUT_VALUE, AttrValue.chunkList s.chunksSeen),
      (OUTPUT_MIME_TYPE, AttrValue.str "application/json")]

/-- Modelled from the spec: the first-token event recorded when the
first chunk is yielded. -/
def firstTokenEvent : SpanEvent := SpanEvent.message "First Token Stream Event"

/-- Modelled from the spec: the span finalized at normal stream
exhaustion — status `OK`, the first-token event when a first token was
seen, and the aggregated attributes. -/
def streamOkSpan (req : Request) (s : AccState) : Span :=
  { name := "OpenAI Chat Completion"
    spanKind := SpanKind.LLM
    statusCode := SpanStatusCode.OK
    statusMessage := ""
    attributes := streamAttributes req s
    events := if s.firstTokenSeen then [firstTokenEvent] else [] }

/-- Modelled from the spec: the span finalized at a mid-stream fault —
status `ERROR`, whatever was aggregated before the fault, the
first-token event (when a first token was seen) followed by the
`SpanException` event. -/
def streamErrorSpan (req : Request) (s : AccState) (e : UpstreamError) : Span :=
  { name := "OpenAI Chat Completion"
    spanKind := SpanKind.LLM
    statusCode := SpanStatusCode.ERROR
    statusMessage := e.message
    attributes := streamAttributes req s
    events := (if s.firstTokenSeen then [firstTokenEvent] else [])
              ++ [exceptionEvent e] }

/-! ## Stream wrapper state machine

Modelled from the spec: the iterator wrapper returned for a streaming
call, its finalization triggers and its re-entry behaviour
(spec sections 4.2 and 4.3). -/

/-- Modelled from the spec: one item produced by the underlying chunk
iterator — a delta chunk, or a fault raised mid-stream.  Exhaustion is
the end of the item list. -/
inductive StreamItem where
  | chunk (c : Chunk)
  | fault (e : UpstreamError)
deriving DecidableEq

/-- Modelled from the spec: the state of the accumulator-wrapped
stream — the wrapped request, the items the underlying iterator has
yet to produce, the accumulator state, and the exhausted flag. -/
structure StreamWrapperState where
  req : Request
  pending : List StreamItem
  acc : AccState
  exhausted : Bool
deriving DecidableEq

/-- Modelled from the spec: the wrapper state handed back by the
interceptor before any iteration. -/
def initWrapper (req : Request) (items : List StreamItem) : StreamWrapperState :=
  { req := req, pending := items, acc := emptyAccState, exhausted := false }

/-- Modelled from the spec: what one pull on the wrapped stream hands
the caller — a forwarded chunk, the terminal signal, or a re-raised
fault. -/
inductive NextResult where
  | yield (c : Chunk)
  | stop
  | raised (e : UpstreamError)
deriving DecidableEq

/-- Modelled from the spec: one pull on the wrapped stream.  After
exhaustion the terminal signal is yielded immediately and no span is
emitted.  On the last underlying item the span is finalized with status
`OK` and handed to the tracer.  On a fault the span is finalized with
status `ERROR`, the accumulator is marked exhausted, and the fault is
re-raised.  Otherwise the chunk is forwarded unchanged and
accumulated. -/
def streamNext (tracer : List Span) (s : StreamWrapperState) :
    NextResult × StreamWrapperState × List Span :=
  if s.exhausted then (NextResult.stop, s, tracer)
  else
    match s.pending with
    | [] =>
      (NextResult.stop, { s with exhausted := true },
       tracer ++ [streamOkSpan s.req s.acc])
    | StreamItem.chunk c :: rest =>
      (NextResult.yield c,
       { s with pending := rest, acc := accumulate s.acc c }, tracer)
    | StreamItem.fault e :: _ =>
      (NextResult.raised e, { s with pending := [], exhausted := true },
       tracer ++ [streamErrorSpan s.req s.acc e])

/-- Modelled from the spec: fuelled driver that pulls on the wrapped
stream until the terminal signal or a re-raised fault, returning the
last pull result, the final wrapper state and the final tracer. -/
def runStreamAux : Nat → List Span → StreamWrapperState →
    NextResult × StreamWrapperState × List Span
  | 0, tracer, s => (NextResult.stop, s, tracer)
  | Nat.succ fuel, tracer, s =>
    match streamNext tracer s with
    | (NextResult.yield _, s2, t2) => runStreamAux fuel t2 s2
    | (NextResult.stop, s2, t2) => (NextResult.stop, s2, t2)
    | (NextResult.raised e, s2, t2) => (NextResult.raised e, s2, t2)

/-- Modelled from the spec: full consumption of the wrapped stream by
the caller; the fuel bound suffices because every yield consumes one
pending item. -/
def runStream (tracer : List Span) (s : StreamWrapperState) :
    NextResult × StreamWrapperState × List Span :=
  runStreamAux (s.pending.length + 1) tracer s

/-- Modelled from the spec: the interceptor branch for a streaming
call — the chunk iterator is wrapped in an accumulator seeded with the
pre-built span data and the span is not emitted yet. -/
def interceptChatCompletionStream (tracer : List Span) (req : Request)
    (items : List StreamItem) : StreamWrapperState × List Span :=
  (initWrapper req items, tracer)

/-- Modelled from the spec: reference accumulation of the underlying
item sequence — fold chunks into the accumulator and stop at the first
fault. -/
def driveAcc : AccState → List StreamItem → AccState × Option UpstreamError
  | s, [] => (s, none)
  | s, StreamItem.chunk c :: rest => driveAcc (accumulate s c) rest
  | s, StreamItem.fault e :: _ => (s, some e)

/-! ## Instrumentor

Modelled from the spec: idempotent installation on the target module
(spec section 4.4). -/

/-- Modelled from the spec: the per-target-module instrumentation
state — the number of interceptor layers wrapped around the original
chat-completion entry point, and the sentinel marking the replacement
(the retained handle to the original method). -/
structure ModuleState where
  wrapCount : Nat
  sentinel : Bool
deriving DecidableEq

/-- Modelled from the spec: a module whose chat-completion entry point
has not been replaced. -/
def freshModule : ModuleState := { wrapCount := 0, sentinel := false }

/-- Modelled from the spec: one `instrument()` invocation — a no-op
when the sentinel marks an existing replacement, regardless of which
instrumentor instance performs it; otherwise the entry point is wrapped
once and the sentinel is set. -/
def instrument (m : ModuleState) : ModuleState :=
  if m.sentinel then m
  else { wrapCount := m.wrapCount + 1, sentinel := true }

/-- Modelled from the spec: `n` successive `instrument()` invocations. -/
def installTimes : Nat → ModuleState → ModuleState
  | 0, m => m
  | Nat.succ n, m => installTimes n (instrument m)

/-- Modelled from the spec: a chat-completion call routed through `k`
stacked interceptor layers; every layer passes the outcome through
unchanged and appends one span. -/
def wrappedCall : Nat → (Request → Outcome) → List Span → Request →
    Outcome × List Span
  | 0, call, tracer, req => (call req, tracer)
  | Nat.succ k, call, tracer, req =>
    match wrappedCall k call tracer req with
    | (out, t2) => (out, t2 ++ [spanForOutcome req out])

/-- Modelled from the spec: a chat-completion call through the module
binding left by the instrumentor. -/
def moduleCall (m : ModuleState) (call : Request → Outcome)
    (tracer : List Span) (req : Request) : Outcome × List Span :=
  wrappedCall m.wrapCount call tracer req

/-! ## Client dispatch

Modelled from the spec: request recognition — only the
chat-completions endpoint is instrumented; the legacy text-completion
endpoint passes through untouched (spec sections 4.1 and 7). -/

/-- Modelled from the spec: a legacy text-completion request. -/
structure TextRequest where
  model : String
  prompt : String
deriving DecidableEq

/-- Modelled from the spec: a legacy text-completion response. -/
structure TextResponse where
  texts : List String
deriving DecidableEq

/-- Modelled from the spec: outcome of the uninstrumented legacy
text-completion entry point. -/
inductive TextOutcome where
  | success (r : TextResponse)
  | failure (e : UpstreamError)
deriving DecidableEq

/-- Modelled from the spec: a request through the client — either to
the chat-completions endpoint or to the legacy text-completion
endpoint. -/
inductive ClientRequest where
  | chat (req : Request)
  | textCompletion (req : TextRequest)
deriving DecidableEq

/-- Modelled from the spec: what the client call hands back. -/
inductive ClientOutcome where
  | chat (o : Outcome)
  | text (o : TextOutcome)
deriving DecidableEq

/-- Modelled from the spec: the uninstrumented client dispatch. -/
def clientDispatch (chatFn : Request → Outcome)
    (textFn : TextRequest → TextOutcome) : ClientRequest → ClientOutcome
  | ClientRequest.chat r => ClientOutcome.chat (chatFn r)
  | ClientRequest.textCompletion r => ClientOutcome.text (textFn r)

/-- Modelled from the spec: the instrumented client dispatch — only the
chat-completions endpoint is routed through the interceptor; the legacy
text-completion endpoint passes through untouched and yields no span. -/
def instrumentedDispatch (tracer : List Span) (chatFn : Request → Outcome)
    (textFn : TextRequest → TextOutcome) :
    ClientRequest → ClientOutcome × List Span
  | ClientRequest.chat r =>
    match interceptChatCompletion tracer chatFn r with
    | (o, t2) => (ClientOutcome.chat o, t2)
  | ClientRequest.textCompletion r =>
    (ClientOutcome.text (textFn r), tracer)

/-- Concatenation of a list of strings in order, used to state the
aggregation properties. -/
def concatStrings : List String → String
  | [] => ""
  | s :: rest => s ++ concatStrings rest

/-- Content delta carried by a chunk (the empty string when the chunk
has no content field). -/
def contentDelta (c : Chunk) : String := c.delta.content.getD ""

/-- Function-call-arguments delta carried by a chunk (the empty string
when the chunk has no function-call-arguments field). -/
def argumentsDelta (c : Chunk) : String := c.delta.functionCallArguments.getD ""

/-! ## Helper lemmas -/

theorem string_append_assoc (a b c : String) : a ++ b ++ c = a ++ (b ++ c) := by
  cases a with
  | mk la =>
    cases b with
    | mk lb =>
      cases c with
      | mk lc =>
        show String.mk (la ++ lb ++ lc) = String.mk (la ++ (lb ++ lc))
        rw [List.append_assoc]

theorem string_append_empty (a : String) : a ++ "" = a := by
  cases a with
  | mk la =>
    show String.mk (la ++ []) = String.mk la
    rw [List.append_nil]

theorem string_empty_append (a : String) : "" ++ a = a := by
  cases a with
  | mk la =>
    show String.mk ([] ++ la) = String.mk la
    rw [List.nil_append]

theorem lookup_append {α β : Type} [BEq α] (k : α) (l1 l2 : List (α × β)) :
    (l1 ++ l2).lookup k
      = match l1.lookup k with
        | some v => some v
        | none => l2.lookup k := by
  induction l1 with
  | nil => simp [List.lookup]
  | cons p rest ih =>
    cases p with
    | mk a b =>
      by_cases h : (k == a) = true
      · simp [List.lookup, h]
      · simp only [Bool.not_eq_true] at h
        simp [List.lookup, h, ih]

theorem foldl_accumulate_content (cs : List Chunk) (a : AccState) :
    (cs.foldl accumulate a).content
      = a.content ++ concatStrings (cs.map contentDelta) := by
  induction cs generalizing a with
  | nil => simp [concatStrings, string_append_empty]
  | cons c rest ih =>
    show (rest.foldl accumulate (accumulate a c)).content = _
    rw [ih]
    show a.content ++ c.delta.content.getD ""
        ++ concatStrings (rest.map contentDelta) = _
    rw [string_append_assoc]
    rfl

theorem foldl_accumulate_arguments (cs : List Chunk) (a : AccState) :
    (cs.foldl accumulate a).functionCallArguments
      = a.functionCallArguments ++ concatStrings (cs.map argumentsDelta) := by
  induction cs generalizing a with
  | nil => simp [concatStrings, string_append_empty]
  | cons c rest ih =>
    show (rest.foldl accumulate (accumulate a c)).functionCallArguments = _
    rw [ih]
    show a.functionCallArguments ++ c.delta.functionCallArguments.getD ""
        ++ concatStrings (rest.map argumentsDelta) = _
    rw [string_append_assoc]
    rfl

theorem foldl_accumulate_firstToken (cs : List Chunk) (a : AccState)
    (h : a.firstTokenSeen = true) :
    (cs.foldl accumulate a).firstTokenSeen = true := by
  induction cs generalizing a with
  | nil => exact h
  | cons c rest ih => exact ih (accumulate a c) rfl

theorem streamAggregate_cons_firstToken (c : Chunk) (rest : List Chunk) :
    (streamAggregate (c :: rest)).firstTokenSeen = true :=
  foldl_accumulate_firstToken rest (accumulate emptyAccState c) rfl

theorem driveAcc_chunks (cs : List Chunk) (a : AccState) :
    driveAcc a (cs.map StreamItem.chunk) = (cs.foldl accumulate a, none) := by
  induction cs generalizing a with
  | nil => rfl
  | cons c rest ih => exact ih (accumulate a c)

theorem driveAcc_fault (cs : List Chunk) (a : AccState) (e : UpstreamError) :
    driveAcc a (cs.map StreamItem.chunk ++ [StreamItem.fault e])
      = (cs.foldl accumulate a, some e) := by
  induction cs generalizing a with
  | nil => rfl
  | cons c rest ih => exact ih (accumulate a c)

theorem runStreamAux_spec (items : List StreamItem) (req : Request)
    (a : AccState) (tracer : List Span) :
    runStreamAux (items.length + 1) tracer
        { req := req, pending := items, acc := a, exhausted := false }
      = match driveAcc a items with
        | (a2, none) =>
          (NextResult.stop,
           { req := req, pending := [], acc := a2, exhausted := true },
           tracer ++ [streamOkSpan req a2])
        | (a2, some e) =>
          (NextResult.raised e,
           { req := req, pending := [], acc := a2, exhausted := true },
           tracer ++ [streamErrorSpan req a2 e]) := by
  induction items generalizing a tracer with
  | nil => rfl
  | cons it rest ih =>
    cases it with
    | chunk c => exact ih (accumulate a c) tracer
    | fault e => rfl

theorem installTimes_sentinel (n : Nat) (m : ModuleState)
    (h : m.sentinel = true) : installTimes n m = m := by
  induction n with
  | zero => rfl
  | succ k ih =>
    have hm : instrument m = m := by simp [instrument, h]
    show installTimes k (instrument m) = m
    rw [hm, ih]

theorem functionCallAttribute_eq (req : Request) (resp : Response) :
    functionCallAttribute req resp
      = match singleFunctionCall resp with
        | some fc =>
          if req.messages.any isAssistantFunctionCallMessage then []
          else [(LLM_FUNCTION_CALL,
                 AttrValue.obj [("name", fc.name), ("arguments", fc.arguments)])]
        | none => [] := by
  cases hc : resp.choices with
  | nil => simp [functionCallAttribute, singleFunctionCall, hc]
  | cons c rest =>
    cases rest with
    | nil =>
      cases hf : c.message.function_call <;>
        simp [functionCallAttribute, singleFunctionCall, hc, hf]
    | cons c2 rest2 => simp [functionCallAttribute, singleFunctionCall, hc]

/-! ## Claim theorems -/

/-- C1 — Transparency of instrumentation: for every wrapped
chat-completion call, the outcome handed back to the caller — the
returned value, or the raised error with its type and message — is
exactly the outcome of the uninstrumented call on the same arguments. -/
theorem instrumentation_transparency (tracer : List Span)
    (call : Request → Outcome) (req : Request) :
    (interceptChatCompletion tracer call req).1 = call req := by
  cases h : call req <;> simp [interceptChatCompletion, h]

/-- C8 — Non-chat isolation: a legacy text-completion call through the
instrumented client returns exactly what the uninstrumented dispatch
returns (so the core raises no error of its own) and leaves the
tracer's span sequence unchanged, emitting zero spans. -/
theorem non_chat_isolation (tracer : List Span) (chatFn : Request → Outcome)
    (textFn : TextRequest → TextOutcome) (r : TextRequest) :
    (instrumentedDispatch tracer chatFn textFn (ClientRequest.textCompletion r)).1
      = clientDispatch chatFn textFn (ClientRequest.textCompletion r)
    ∧ (instrumentedDispatch tracer chatFn textFn
        (ClientRequest.textCompletion r)).2 = tracer :=
  ⟨rfl, rfl⟩

/-- C10 — Totality of the pandas-to-SQL type mapping: every dtype
string appearing as a value of `SPAN_DATAFRAME_TYPES` is a key of
`SQL_TYPE_MAP`, so every span dataframe column translates to a
DataBricks SQL type. -/
theorem sql_type_map_total :
    ∀ p ∈ SPAN_DATAFRAME_TYPES, (SQL_TYPE_MAP.lookup p.2).isSome = true := by
  decide

/-- Witness for `sql_type_map_total` at the `start_time` column. -/
theorem sql_type_map_total_witness :
    (SQL_TYPE_MAP.lookup (("start_time", "datetime64[ns, UTC]") : String × String).2).isSome
      = true :=
  sql_type_map_total ("start_time", "datetime64[ns, UTC]") (by decide)

/-- C4 — Idempotent installation: a second `instrument()` on the same
target — by whichever instrumentor instance, since the decision reads
only the target's sentinel — is a no-op, and after any positive number
of installations one chat-completion call appends exactly one span to
the tracer, not one per installation. -/
theorem instrument_idempotent :
    (∀ m : ModuleState, instrument (instrument m) = instrument m)
    ∧ (∀ (n : Nat) (call : Request → Outcome) (tracer : List Span)
        (req : Request),
        (moduleCall (installTimes (n + 1) freshModule) call tracer req).2.length
          = tracer.length + 1) := by
  constructor
  · intro m
    by_cases h : m.sentinel = true
    · simp [instrument, h]
    · simp [instrument, h]
  · intro n call tracer req
    have h1 : installTimes (n + 1) freshModule
        = { wrapCount := 1, sentinel := true } := by
      show installTimes n (instrument freshModule)
          = { wrapCount := 1, sentinel := true }
      have : instrument freshModule = { wrapCount := 1, sentinel := true } := by
        simp [instrument, freshModule]
      rw [this]
      exact installTimes_sentinel n _ rfl
    rw [h1]
    simp [moduleCall, wrappedCall]

/-- C5 — Top-level function-call attribute: in the span of a
non-streaming chat completion, the `llm.function_call` attribute is
present iff the single response message has a function call and no
prior assistant function-call message exists in the input messages, and
when present its value is the JSON object with exactly the keys `name`
and `arguments`. -/
theorem function_call_attribute_iff (req : Request) (resp : Response) :
    (∀ fc, singleFunctionCall resp = some fc →
      req.messages.any isAssistantFunctionCallMessage = false →
      ((chatCompletionSpan req resp).attributes).lookup LLM_FUNCTION_CALL
        = some (AttrValue.obj [("name", fc.name), ("arguments", fc.arguments)]))
    ∧ (singleFunctionCall resp = none →
      ((chatCompletionSpan req resp).attributes).lookup LLM_FUNCTION_CALL
        = none)
    ∧ (req.messages.any isAssistantFunctionCallMessage = true →
      ((chatCompletionSpan req resp).attributes).lookup LLM_FUNCTION_CALL
        = none) := by
  refine ⟨?_, ?_, ?_⟩
  · intro fc h1 h2
    have hfca : functionCallAttribute req resp
        = [(LLM_FUNCTION_CALL,
            AttrValue.obj [("name", fc.name), ("arguments", fc.arguments)])] := by
      rw [functionCallAttribute_eq, h1]
      simp [h2]
    simp [chatCompletionSpan, chatCompletionAttributes, requestAttributes,
          hfca, lookup_append, List.lookup, LLM_FUNCTION_CALL,
          LLM_INPUT_MESSAGES, LLM_INVOCATION_PARAMETERS, INPUT_VALUE,
          INPUT_MIME_TYPE, LLM_OUTPUT_MESSAGES]
  · intro h1
    have hfca : functionCallAttribute req resp = [] := by
      rw [functionCallAttribute_eq, h1]
    cases hu : resp.usage <;>
      simp [chatCompletionSpan, chatCompletionAttributes, requestAttributes,
            hfca, hu, tokenCountAttributes, lookup_append, List.lookup,
            LLM_FUNCTION_CALL, LLM_INPUT_MESSAGES, LLM_INVOCATION_PARAMETERS,
            INPUT_VALUE, INPUT_MIME_TYPE, LLM_OUTPUT_MESSAGES,
            LLM_TOKEN_COUNT_PROMPT, LLM_TOKEN_COUNT_COMPLETION,
            LLM_TOKEN_COUNT_TOTAL, OUTPUT_VALUE, OUTPUT_MIME_TYPE]
  · intro h2
    have hfca : functionCallAttribute req resp = [] := by
      rw [functionCallAttribute_eq]
      cases h1 : singleFunctionCall resp <;> simp [h2]
    cases hu : resp.usage <;>
      simp [chatCompletionSpan, chatCompletionAttributes, requestAttributes,
            hfca, hu, tokenCountAttributes, lookup_append, List.lookup,
            LLM_FUNCTION_CALL, LLM_INPUT_MESSAGES, LLM_INVOCATION_PARAMETERS,
            INPUT_VALUE, INPUT_MIME_TYPE, LLM_OUTPUT_MESSAGES,
            LLM_TOKEN_COUNT_PROMPT, LLM_TOKEN_COUNT_COMPLETION,
            LLM_TOKEN_COUNT_TOTAL, OUTPUT_VALUE, OUTPUT_MIME_TYPE]

/-- Witness for `function_call_attribute_iff`: a pure function-call
response to a request with no prior assistant function-call message. -/
theorem function_call_attribute_iff_witness :
    ((chatCompletionSpan
        { model := "gpt-4",
          messages := [{ role := "user",
                         content := some "What is the weather in Boston?" }],
          paramsJson := "", stream := false }
        { choices := [{ message :=
            { role := "assistant", content := none,
              function_call := some { name := "get_current_weather",
                                      arguments := "location: Boston, MA" } } }],
          usage := none, rawJson := "" }).attributes).lookup LLM_FUNCTION_CALL
      = some (AttrValue.obj [("name", "get_current_weather"),
                             ("arguments", "location: Boston, MA")]) :=
  (function_call_attribute_iff
    { model := "gpt-4",
      messages := [{ role := "user",
                     content := some "What is the weather in Boston?" }],
      paramsJson := "", stream := false }
    { choices := [{ message :=
        { role := "assistant", content := none,
          function_call := some { name := "get_current_weather",
                                  arguments := "location: Boston, MA" } } }],
      usage := none, rawJson := "" }).1
    { name := "get_current_weather", arguments := "location: Boston, MA" }
    rfl rfl

/-- C6 — Error surface: a chat-completion call in which the upstream
client raises a typed error (e.g. an authentication failure) appends
exactly one span, with status `ERROR`, a status message containing the
upstream error message, and exactly one `SpanException` event carrying
the exception type, its message, and a stacktrace containing the string
"Traceback". -/
theorem auth_error_surface (tracer : List Span) (call : Request → Outcome)
    (req : Request) (e : UpstreamError) (h : call req = Outcome.failure e) :
    interceptChatCompletion tracer call req
        = (Outcome.failure e, tracer ++ [errorSpan req e])
    ∧ (errorSpan req e).statusCode = SpanStatusCode.ERROR
    ∧ (∃ pre post, (errorSpan req e).statusMessage = pre ++ e.message ++ post)
    ∧ (errorSpan req e).events
        = [SpanEvent.exception e.etype e.message (formatStacktrace e)]
    ∧ (∃ pre post, formatStacktrace e = pre ++ "Traceback" ++ post) := by
  refine ⟨?_, rfl, ⟨"", "", ?_⟩, rfl, ⟨"",
    " (most recent call last):\n" ++ e.etype ++ ": " ++ e.message, ?_⟩⟩
  · simp [interceptChatCompletion, h]
  · show e.message = "" ++ e.message ++ ""
    rw [string_append_empty, string_empty_append]
  · show "Traceback" ++ " (most recent call last):\n" ++ e.etype ++ ": "
        ++ e.message = _
    simp only [string_append_assoc, string_empty_append]

/-- Witness for `auth_error_surface`: a call that raises an
authentication error. -/
theorem auth_error_surface_witness :
    interceptChatCompletion []
        (fun _ => Outcome.failure { etype := "AuthenticationError",
                                    message := "error-message" })
        { model := "gpt-4", messages := [], paramsJson := "", stream := false }
      = (Outcome.failure { etype := "AuthenticationError",
                           message := "error-message" },
         [] ++ [errorSpan
           { model := "gpt-4", messages := [], paramsJson := "",
             stream := false }
           { etype := "AuthenticationError", message := "error-message" }]) :=
  (auth_error_surface []
    (fun _ => Outcome.failure { etype := "AuthenticationError",
                                message := "error-message" })
    { model := "gpt-4", messages := [], paramsJson := "", stream := false }
    { etype := "AuthenticationError", message := "error-message" } rfl).1

/-- C9 — Null fields are omitted: a response assistant message whose
content is null yields an output-message entry with no content key at
all — for the pure function-call response exactly the keys role,
function-call-name and function-call-arguments-json appear — and the
aggregated streaming message likewise omits the content key when no
content was accumulated. -/
theorem null_fields_omitted :
    (∀ (role : String) (fc : FunctionCall),
      (messageAttributes { role := role, content := none, name := none,
                           function_call := some fc,
                           tool_calls := none }).map Prod.fst
        = [MESSAGE_ROLE, MESSAGE_FUNCTION_CALL_NAME,
           MESSAGE_FUNCTION_CALL_ARGUMENTS_JSON])
    ∧ (∀ m : ChatMessage, m.content = none →
        MESSAGE_CONTENT ∉ (messageAttributes m).map Prod.fst)
    ∧ (∀ s : AccState, s.content = "" →
        MESSAGE_CONTENT ∉ (aggregatedMessageAttributes s).map Prod.fst) := by
  refine ⟨?_, ?_, ?_⟩
  · intro role fc
    simp [messageAttributes]
  · intro m h
    cases hn : m.name <;> cases hf : m.function_call <;>
      cases ht : m.tool_calls <;>
      simp [messageAttributes, h, hn, hf, ht, MESSAGE_CONTENT, MESSAGE_ROLE,
            MESSAGE_NAME, MESSAGE_FUNCTION_CALL_NAME,
            MESSAGE_FUNCTION_CALL_ARGUMENTS_JSON, MESSAGE_TOOL_CALLS]
  · intro s h
    by_cases ha : s.functionCallArguments = "" <;>
      cases hr : s.role <;> cases hn : s.functionCallName <;>
      cases ht : s.toolCallsAcc <;>
      simp [aggregatedMessageAttributes, h, ha, hr, hn, ht, MESSAGE_CONTENT,
            MESSAGE_ROLE, MESSAGE_FUNCTION_CALL_NAME,
            MESSAGE_FUNCTION_CALL_ARGUMENTS_JSON, MESSAGE_TOOL_CALLS]

/-- Witness for `null_fields_omitted`: a pure function-call response
message and an accumulator that saw no content deltas. -/
theorem null_fields_omitted_witness :
    MESSAGE_CONTENT ∉ (messageAttributes
        { role := "assistant", content := none, name := none,
          function_call := some { name := "get_current_weather",
                                  arguments := "location: Boston" },
          tool_calls := none }).map Prod.fst
    ∧ MESSAGE_CONTENT ∉ (aggregatedMessageAttributes
        { firstTokenSeen := true, chunksSeen := [],
          role := some "assistant", content := "",
          functionCallName := some "get_current_weather",
          functionCallArguments := "location: Madrid",
          toolCallsAcc := [] }).map Prod.fst :=
  ⟨null_fields_omitted.2.1 _ rfl, null_fields_omitted.2.2 _ rfl⟩

/-- C2 — One span per call: every non-streaming instrumented call
appends exactly one span to the tracer; a streaming call appends zero
spans before iteration begins, exactly one span once the stream is
fully consumed — whether it ends by exhaustion or by a fault — and
pulling again on the exhausted stream yields the terminal signal
immediately without emitting a second span. -/
theorem one_span_per_call :
    (∀ (tracer : List Span) (call : Request → Outcome) (req : Request),
      ((interceptChatCompletion tracer call req).2).length = tracer.length + 1)
    ∧ (∀ (tracer : List Span) (req : Request) (items : List StreamItem),
      (interceptChatCompletionStream tracer req items).2 = tracer)
    ∧ (∀ (tracer : List Span) (req : Request) (items : List StreamItem),
      ((runStream tracer (initWrapper req items)).2.2).length = tracer.length + 1)
    ∧ (∀ (tracer tracer2 : List Span) (req : Request) (items : List StreamItem),
      streamNext tracer2 ((runStream tracer (initWrapper req items)).2.1)
        = (NextResult.stop, (runStream tracer (initWrapper req items)).2.1,
           tracer2)) := by
  refine ⟨?_, fun _ _ _ => rfl, ?_, ?_⟩
  · intro tracer call req
    cases h : call req <;> simp [interceptChatCompletion, h]
  · intro tracer req items
    have h := runStreamAux_spec items req emptyAccState tracer
    show (runStreamAux (items.length + 1) tracer
        { req := req, pending := items, acc := emptyAccState,
          exhausted := false }).2.2.length = tracer.length + 1
    rw [h]
    cases hd : driveAcc emptyAccState items with
    | mk a2 oe => cases oe <;> simp
  · intro tracer tracer2 req items
    have h := runStreamAux_spec items req emptyAccState tracer
    show streamNext tracer2 ((runStreamAux (items.length + 1) tracer
        { req := req, pending := items, acc := emptyAccState,
          exhausted := false }).2.1)
      = (NextResult.stop,
         (runStreamAux (items.length + 1) tracer
           { req := req, pending := items, acc := emptyAccState,
             exhausted := false }).2.1, tracer2)
    rw [h]
    cases hd : driveAcc emptyAccState items with
    | mk a2 oe => cases oe <;> simp [streamNext]

/-- C3 — Aggregation correctness: the aggregated assistant message of a
streamed response has content equal to the in-order concatenation of
the content deltas and function-call arguments equal to the in-order
concatenation of the argument deltas, and the span emitted at
exhaustion carries exactly this aggregate. -/
theorem stream_aggregation_concat (chunks : List Chunk) (req : Request)
    (tracer : List Span) :
    (streamAggregate chunks).content = concatStrings (chunks.map contentDelta)
    ∧ (streamAggregate chunks).functionCallArguments
        = concatStrings (chunks.map argumentsDelta)
    ∧ (runStream tracer (initWrapper req (chunks.map StreamItem.chunk))).2.2
        = tracer ++ [streamOkSpan req (streamAggregate chunks)] := by
  refine ⟨?_, ?_, ?_⟩
  · have h := foldl_accumulate_content chunks emptyAccState
    rw [streamAggregate, h]
    show "" ++ concatStrings (chunks.map contentDelta) = _
    rw [string_empty_append]
  · have h := foldl_accumulate_arguments chunks emptyAccState
    rw [streamAggregate, h]
    show "" ++ concatStrings (chunks.map argumentsDelta) = _
    rw [string_empty_append]
  · have h := runStreamAux_spec (chunks.map StreamItem.chunk) req
      emptyAccState tracer
    rw [driveAcc_chunks] at h
    show (runStreamAux ((chunks.map StreamItem.chunk).length + 1) tracer
        { req := req, pending := chunks.map StreamItem.chunk,
          acc := emptyAccState, exhausted := false }).2.2
      = tracer ++ [streamOkSpan req (streamAggregate chunks)]
    rw [h]
    rfl

/-- C7 — Mid-stream fault ordering: when the underlying stream raises
after yielding some chunks, consuming the wrapped stream re-raises the
fault to the caller and appends exactly one span with status `ERROR`
whose event list places the first-token event strictly before the
`SpanException` event and whose aggregate content is the concatenation
of the content deltas received before the fault. -/
theorem midstream_fault_ordering (chunks : List Chunk) (e : UpstreamError)
    (req : Request) (tracer : List Span) (h : chunks ≠ []) :
    runStream tracer
        (initWrapper req (chunks.map StreamItem.chunk ++ [StreamItem.fault e]))
      = (NextResult.raised e,
         { req := req, pending := [], acc := streamAggregate chunks,
           exhausted := true },
         tracer ++ [streamErrorSpan req (streamAggregate chunks) e])
    ∧ (streamErrorSpan req (streamAggregate chunks) e).statusCode
        = SpanStatusCode.ERROR
    ∧ (streamErrorSpan req (streamAggregate chunks) e).events
        = [firstTokenEvent, exceptionEvent e]
    ∧ (streamAggregate chunks).content
        = concatStrings (chunks.map contentDelta) := by
  refine ⟨?_, rfl, ?_, ?_⟩
  · have hs := runStreamAux_spec
      (chunks.map StreamItem.chunk ++ [StreamItem.fault e]) req
      emptyAccState tracer
    rw [driveAcc_fault] at hs
    show runStreamAux
        ((chunks.map StreamItem.chunk ++ [StreamItem.fault e]).length + 1)
        tracer
        { req := req,
          pending := chunks.map StreamItem.chunk ++ [StreamItem.fault e],
          acc := emptyAccState, exhausted := false } = _
    rw [hs]
    rfl
  · cases chunks with
    | nil => exact absurd rfl h
    | cons c rest =>
      have hft := streamAggregate_cons_firstToken c rest
      simp [streamErrorSpan, hft]
  · have hc := foldl_accumulate_content chunks emptyAccState
    rw [streamAggregate, hc]
    show "" ++ concatStrings (chunks.map contentDelta) = _
    rw [string_empty_append]

/-- Witness for `midstream_fault_ordering`: one content chunk followed
by a fault. -/
theorem midstream_fault_ordering_witness :
    (streamErrorSpan { model := "gpt-4", messages := [], paramsJson := "",
                       stream := true }
      (streamAggregate
        [{ delta := { role := some "assistant", content := some "The",
                      functionCallName := none, functionCallArguments := none,
                      tool_calls := [] } }])
      { etype := "RuntimeError", message := "error-message" }).events
      = [firstTokenEvent,
         exceptionEvent { etype := "RuntimeError", message := "error-message" }] :=
  (midstream_fault_ordering
    [{ delta := { role := some "assistant", content := some "The",
                  functionCallName := none, functionCallArguments := none,
                  tool_calls := [] } }]
    { etype := "RuntimeError", message := "error-message" }
    { model := "gpt-4", messages := [], paramsJson := "", stream := true }
    [] (List.cons_ne_nil _ _)).2.2.1
